import Mathlib

/-!
Verification development for the BeanieBabyBuddy price-estimation worker.

The definitions below are a shallow embedding of `src/worker.js`:
  - JavaScript numbers that may be NaN or infinite are modelled as
    `Option ℚ` (`none` is the non-finite sentinel, `some q` a finite value);
  - the statistics engine `summarize` is translated clause by clause,
    with the inner closures (`q`, the fences, the trim) as named
    top-level functions;
  - the token manager `getEbayToken` threads its scope-keyed cache
    explicitly and takes the outcome of the credential exchange as a
    parameter;
  - the `/api/estimate` orchestrator takes the outcomes of the network
    calls as an oracle record and additionally returns the ordered list
    of notes and of external calls it performed.
-/

namespace BeanieBabyBuddy

/-- A JavaScript value as far as price extraction observes it: its
truthiness and the result of `Number(v)` (`none` models NaN / non-finite). -/
structure JsVal where
  truthy : Bool
  toNum : Option ℚ
deriving Repr, DecidableEq

/-- Canonical item record emitted by the adapters.  `price` is `none`
exactly when the JavaScript price would be NaN (before filtering). -/
structure Item where
  title : String
  price : Option ℚ
  condition : Option String
  url : Option String
  source : String
deriving Repr, DecidableEq

/-- The record returned by `summarize`; `none` is the NaN sentinel. -/
structure StatSummary where
  count : ℕ
  min : Option ℚ
  max : Option ℚ
  avg : Option ℚ
  median : Option ℚ
  p25 : Option ℚ
  p75 : Option ℚ
  avg_trimmed : Option ℚ
deriving Repr, DecidableEq

/-! ## Statistics engine (`summarize`, worker.js lines 251-292) -/

/-- `values.filter(Number.isFinite).sort((x, y) => x - y)`:
keep the finite values and sort ascending. -/
def sortedOf (values : List (Option ℚ)) : List ℚ :=
  List.insertionSort (· ≤ ·) (values.filterMap id)

/-- The closure `q` inside `summarize`:
`i = (a.length - 1) * p; (a[Math.floor(i)] + a[Math.ceil(i)]) / 2`. -/
def qtile (a : List ℚ) (p : ℚ) : ℚ :=
  (a.getD (Int.floor (((a.length : ℚ) - 1) * p)).toNat 0 +
      a.getD (Int.ceil (((a.length : ℚ) - 1) * p)).toNat 0) / 2

/-- `reduce((s, v) => s + v, 0) / length`. -/
def meanOf (l : List ℚ) : ℚ :=
  l.foldl (· + ·) 0 / (l.length : ℚ)

/-- `loFence = p25 - 1.5 * iqr`. -/
def loFenceOf (a : List ℚ) : ℚ :=
  qtile a (1/4) - 3/2 * (qtile a (3/4) - qtile a (1/4))

/-- `hiFence = p75 + 1.5 * iqr`. -/
def hiFenceOf (a : List ℚ) : ℚ :=
  qtile a (3/4) + 3/2 * (qtile a (3/4) - qtile a (1/4))

/-- `a.filter(v => v >= loFence && v <= hiFence)`. -/
def trimmedOf (a : List ℚ) : List ℚ :=
  a.filter (fun v => decide (loFenceOf a ≤ v ∧ v ≤ hiFenceOf a))

/-- `trimmed.length ? mean(trimmed) : avg`. -/
def avgTrimmedOf (a : List ℚ) : ℚ :=
  if (trimmedOf a).length ≠ 0 then meanOf (trimmedOf a) else meanOf a

/-- The all-sentinel summary returned for an empty series. -/
def emptySummary : StatSummary :=
  { count := 0, min := none, max := none, avg := none, median := none,
    p25 := none, p75 := none, avg_trimmed := none }

/-- `summarize(values)` from worker.js lines 251-292. -/
def summarize (values : List (Option ℚ)) : StatSummary :=
  let a := sortedOf values
  if a.length = 0 then emptySummary
  else
    { count := a.length
      min := some (a.getD 0 0)
      max := some (a.getD (a.length - 1) 0)
      avg := some (meanOf a)
      median := some (qtile a (1/2))
      p25 := some (qtile a (1/4))
      p75 := some (qtile a (3/4))
      avg_trimmed := some (avgTrimmedOf a) }

/-! ## Token manager (`getEbayToken`, worker.js lines 27-66) -/

/-- One entry of the process-wide `TOKEN_CACHE` map. -/
structure TokenEntry where
  value : String
  exp : ℤ
deriving Repr, DecidableEq

/-- The scope-keyed token cache; `Map.get` is the first matching key. -/
abbrev TokenCache := List (String × TokenEntry)

/-- Worker environment bindings referenced by the main worker. -/
structure Env where
  EBAY_CLIENT_ID : Option String
  EBAY_CLIENT_SECRET : Option String
  ETSY_API_KEY : Option String
  ETSY_OAUTH_TOKEN : Option String
  X_EBAY_MARKETPLACE_ID : Option String
deriving Repr, DecidableEq

/-- JavaScript truthiness of a possibly-absent environment string:
`undefined` and the empty string are falsy. -/
def truthyStr (s : Option String) : Bool :=
  s.getD "" != ""

/-- Outcome of the `fetch` to the eBay OAuth endpoint, as observed by
`getEbayToken`: a non-success transport response, or a JSON body whose
`access_token` / `expires_in` fields may be absent. -/
inductive MintOutcome where
  | httpErr (status : ℕ) (body : String)
  | ok (access_token : Option String) (expires_in : Option ℤ)
deriving Repr, DecidableEq

/-- The cache-miss path of `getEbayToken`: check the client credentials,
perform the exchange, and store the token with
`exp = now + Math.max(0, expires_in) * 1000`. -/
def mintToken (env : Env) (mint : MintOutcome) (cache : TokenCache) (now : ℤ)
    (scope : String) : Except String (String × TokenCache) :=
  if truthyStr env.EBAY_CLIENT_ID && truthyStr env.EBAY_CLIENT_SECRET then
    match mint with
    | .httpErr status body =>
        .error ("eBay token error " ++ toString status ++ " " ++ body)
    | .ok access_token expires_in =>
        let token := access_token.getD ""
        let exp := now + max 0 (expires_in.getD 0) * 1000
        if token = "" then .error "OAuth response missing access_token"
        else .ok (token, (scope, ⟨token, exp⟩) :: cache)
  else .error "Missing EBAY_CLIENT_ID or EBAY_CLIENT_SECRET"

/-- `getEbayToken(env, scope)` (worker.js lines 36-66): return the cached
token while `cached.exp > now + 60_000`, otherwise mint afresh. -/
def getEbayToken (env : Env) (mint : MintOutcome) (cache : TokenCache) (now : ℤ)
    (scope : String) : Except String (String × TokenCache) :=
  match List.lookup scope cache with
  | some cached =>
      if now + 60000 < cached.exp then .ok (cached.value, cache)
      else mintToken env mint cache now scope
  | none => mintToken env mint cache now scope

/-! ## Adapter price extraction (worker.js lines 95-112 and 158-175) -/

/-- The first truthy operand of a JavaScript `||` chain over
possibly-absent values (an absent operand is `undefined`, hence falsy). -/
def firstTruthy (cands : List (Option JsVal)) : Option JsVal :=
  (cands.filterMap id).find? (fun v => v.truthy)

/-- `Number(c1 || c2 || ... || NaN)`: convert the first truthy candidate,
or NaN (`none`) when every candidate is absent or falsy. -/
def extractPrice (cands : List (Option JsVal)) : Option ℚ :=
  match firstTruthy cands with
  | some v => v.toNum
  | none => none

/-- `cands.all` of: every candidate price field that is present fails to
parse to a finite number. -/
def allCandidatesFail (cands : List (Option JsVal)) : Bool :=
  cands.all (fun c => match c with
    | some v => v.toNum.isNone
    | none => true)

/-- A raw `itemSummaries` record as `searchEbayCurrent` reads it
(each price candidate is `it.price && it.price.value` flattened). -/
structure EbayCurrentRaw where
  title : String
  priceValue : Option JsVal
  currentBidPriceValue : Option JsVal
  condition : Option String
  itemWebUrl : Option String
deriving Repr, DecidableEq

/-- The `.map` body of `searchEbayCurrent` (worker.js lines 96-109). -/
def mapEbayCurrent (it : EbayCurrentRaw) : Item :=
  { title := it.title
    price := extractPrice [it.priceValue, it.currentBidPriceValue]
    condition := it.condition
    url := it.itemWebUrl
    source := "ebay_current" }

/-- `searchEbayCurrent`'s normalization: map then
`.filter(i => Number.isFinite(i.price))` (worker.js lines 95-112). -/
def ebayCurrentItems (rows : List EbayCurrentRaw) : List Item :=
  (rows.map mapEbayCurrent).filter (fun i => i.price.isSome)

/-- A raw sold-comp record as `searchEbaySold` reads it, with its five
price candidates flattened. -/
structure EbaySoldRaw where
  title : String
  condition : Option String
  itemWebUrl : Option String
  priceValue : Option JsVal
  soldPriceValue : Option JsVal
  lastSoldPriceValue : Option JsVal
  transactionPriceValue : Option JsVal
  itemPriceValue : Option JsVal
deriving Repr, DecidableEq

/-- The ordered candidate list of `searchEbaySold` (worker.js lines 165-172). -/
def soldCandidates (it : EbaySoldRaw) : List (Option JsVal) :=
  [it.priceValue, it.soldPriceValue, it.lastSoldPriceValue,
    it.transactionPriceValue, it.itemPriceValue]

/-- `searchEbaySold`'s normalization loop (worker.js lines 158-175):
push a row only when its extracted price is finite. -/
def ebaySoldItems (rows : List EbaySoldRaw) : List Item :=
  rows.filterMap (fun it =>
    match extractPrice (soldCandidates it) with
    | some p =>
        some { title := it.title, price := some p, condition := it.condition,
               url := it.itemWebUrl, source := "ebay_sold" }
    | none => none)

/-! ## Orchestrator (`fetch`, `/api/estimate` branch, worker.js lines 302-390) -/

/-- Outcome of one adapter call as the orchestrator observes it: the
adapter resolved with `{items, note}`, or it threw with a message. -/
inductive Outcome where
  | ok (items : List Item) (note : String)
  | err (msg : String)
deriving Repr, DecidableEq

/-- Outcomes of the external calls a single `/api/estimate` request may
perform, supplied as an oracle to the pure model. -/
structure Oracles where
  mintBrowse : MintOutcome
  mintInsights : MintOutcome
  ebayCurrent : Outcome
  ebaySold : Outcome
  etsy : Outcome
deriving Repr, DecidableEq

/-- The JSON payload assembled at worker.js lines 380-389. -/
structure EstimateResult where
  items_current : List Item
  items_sold : List Item
  stats_current : StatSummary
  stats_sold : StatSummary
  stats_combined : StatSummary
  note : String
deriving Repr, DecidableEq

/-- The observable effect of one `/api/estimate` request: HTTP status,
body (an estimate payload or an error object), the ordered note trail,
the ordered list of external calls performed, and the final token cache. -/
structure HandlerResult where
  status : ℕ
  result : Option EstimateResult
  errorBody : Option String
  notes : List String
  calls : List String
  cache : TokenCache
deriving Repr, DecidableEq

/-- Executable model of `String.prototype.trim`: drop leading and
trailing whitespace characters. -/
def jsTrim (s : String) : String :=
  ⟨((s.data.dropWhile Char.isWhitespace).reverse.dropWhile
      Char.isWhitespace).reverse⟩

/-- `!q` after `url.searchParams.get("query")?.trim()`: the query is
absent or trims to the empty string. -/
def blankQuery (query : Option String) : Bool :=
  (query.map jsTrim).getD "" == ""

/-- `Array.isArray(o?.items) ? o.items : []`. -/
def branchItems (o : Outcome) : List Item :=
  match o with
  | .ok items _ => items
  | .err _ => []

/-- The two truthiness-guarded pushes
`if (o && o.note) notes.push(o.note); if (o && o.error) notes.push(o.error)`. -/
def branchNotes (o : Outcome) : List String :=
  match o with
  | .ok _ note => if note == "" then [] else [note]
  | .err msg => if msg == "" then [] else [msg]

/-- The Etsy cascade step (worker.js lines 357-368): when the current
branch is empty and `ETSY_API_KEY` is truthy, call `searchEtsyCurrent`;
substitute its items when non-empty, record its note or error.  Returns
the (possibly substituted) current items, the grown note list, and the
grown call list. -/
def etsyFallback (env : Env) (etsy : Outcome) (items_current : List Item)
    (notes calls : List String) : List Item × List String × List String :=
  if items_current.length = 0 && truthyStr env.ETSY_API_KEY then
    match etsy with
    | .ok its note =>
        (if its.length ≠ 0 then its else items_current,
          notes ++ [note], calls ++ ["searchEtsyCurrent"])
    | .err msg =>
        (items_current, notes ++ ["Etsy current error: " ++ msg],
          calls ++ ["searchEtsyCurrent"])
  else (items_current, notes, calls)

/-- Scope requested for the Buy Browse adapter. -/
def browseScope : String := "https://api.ebay.com/oauth/api_scope/buy.browse"

/-- Scope requested for the Marketplace Insights adapter. -/
def insightsScope : String :=
  "https://api.ebay.com/oauth/api_scope/buy.marketplace.insights"

/-- The `/api/estimate` handler of the main worker (worker.js lines
307-390), with the two token mints threaded through the cache, the two
primary adapter outcomes tagged exactly as the `.catch` wrappers tag
them, the Etsy cascade, and the three statistics calls. -/
def handleEstimate (env : Env) (query : Option String) (cache : TokenCache)
    (now : ℤ) (o : Oracles) : HandlerResult :=
  if blankQuery query then
    { status := 400, result := none, errorBody := some "Missing query",
      notes := [], calls := [], cache := cache }
  else
    let browseRes := getEbayToken env o.mintBrowse cache now browseScope
    let cache1 := match browseRes with
      | .ok (_, c) => c
      | .error _ => cache
    let notes0 : List String := match browseRes with
      | .ok _ => []
      | .error msg => ["Browse token error: " ++ msg]
    let insightsRes := getEbayToken env o.mintInsights cache1 now insightsScope
    let cache2 := match insightsRes with
      | .ok (_, c) => c
      | .error _ => cache1
    let notes1 := notes0 ++ (match insightsRes with
      | .ok _ => []
      | .error msg => ["Insights token error: " ++ msg])
    let cur : Outcome := match browseRes with
      | .ok _ =>
          (match o.ebayCurrent with
            | .ok its note => .ok its note
            | .err msg => .err ("eBay current error: " ++ msg))
      | .error _ => .err "No Browse token"
    let sold : Outcome := match insightsRes with
      | .ok _ =>
          (match o.ebaySold with
            | .ok its note => .ok its note
            | .err msg => .err ("eBay sold error: " ++ msg))
      | .error _ => .err "No Insights token"
    let calls0 := ["getEbayToken browse", "getEbayToken insights"] ++
      (match browseRes with
        | .ok _ => ["searchEbayCurrent"]
        | .error _ => []) ++
      (match insightsRes with
        | .ok _ => ["searchEbaySold"]
        | .error _ => [])
    let items_current0 := branchItems cur
    let notes2 := notes1 ++ branchNotes cur
    let fb := etsyFallback env o.etsy items_current0 notes2 calls0
    let items_current := fb.1
    let notes3 := fb.2.1
    let calls1 := fb.2.2
    let items_sold := branchItems sold
    let notes4 := notes3 ++ branchNotes sold
    { status := 200,
      result := some
        { items_current := items_current
          items_sold := items_sold
          stats_current := summarize (items_current.map (fun i => i.price))
          stats_sold := summarize (items_sold.map (fun i => i.price))
          stats_combined :=
            summarize ((items_current ++ items_sold).map (fun i => i.price))
          note := String.intercalate " | " notes4 }
      errorBody := none
      notes := notes4
      calls := calls1
      cache := cache2 }

/-- Spec predicate, total misconfiguration of the main worker: no usable
source configured at all (no eBay client-credential pair and no Etsy key). -/
def totallyMisconfigured (env : Env) : Bool :=
  !(truthyStr env.EBAY_CLIENT_ID && truthyStr env.EBAY_CLIENT_SECRET) &&
    !truthyStr env.ETSY_API_KEY

/-- Environment bindings referenced by the compat variant (part_001). -/
structure CompatEnv where
  EBAY_APP_ID : Option String
  EBAY_CLIENT_ID : Option String
  EBAY_CLIENT_SECRET : Option String
deriving Repr, DecidableEq

/-- Total misconfiguration test of the compat variant (part_001 line 226):
`!env.EBAY_APP_ID && !(env.EBAY_CLIENT_ID && env.EBAY_CLIENT_SECRET)`. -/
def compatMisconfigured (env : CompatEnv) : Bool :=
  !truthyStr env.EBAY_APP_ID &&
    !(truthyStr env.EBAY_CLIENT_ID && truthyStr env.EBAY_CLIENT_SECRET)

/-- HTTP status of the compat variant's `/api/estimate` handler (part_001
lines 222-291): 400 for a blank query, 500 for total misconfiguration,
and otherwise 200 — every other path returns `json(payload)` with the
default status. -/
def compatEstimateStatus (env : CompatEnv) (query : Option String) : ℕ :=
  if blankQuery query then 400
  else if compatMisconfigured env then 500
  else 200

/-- Modelled from the spec: the quantile `q(p)` described as the midpoint
`(a[floor((n-1)p)] + a[ceil((n-1)p)]) / 2` of the two bounding order
statistics of the sorted series `a`. -/
def specQuantile (a : List ℚ) (p : ℚ) : ℚ :=
  (a.getD (Int.floor (((a.length : ℚ) - 1) * p)).toNat 0 +
      a.getD (Int.ceil (((a.length : ℚ) - 1) * p)).toNat 0) / 2

/-! ## Concrete fixtures for witnesses and counterexamples -/

/-- A fully configured environment: eBay credentials and an Etsy key. -/
def envConfigured : Env := ⟨some "id", some "sec", some "key", none, none⟩

/-- A totally unconfigured environment: no usable source at all. -/
def envUnconfigured : Env := ⟨none, none, none, none, none⟩

/-- eBay credentials but no Etsy key (no secondary adapter configured). -/
def envNoEtsy : Env := ⟨some "id", some "sec", none, none, none⟩

/-- A cache already holding fresh tokens for both scopes. -/
def cacheTokens : TokenCache :=
  [(browseScope, ⟨"tb", 10000000⟩), (insightsScope, ⟨"ti", 10000000⟩)]

/-- An Etsy item priced 10. -/
def itemA : Item := ⟨"a", some 10, none, none, "etsy_current"⟩

/-- An Etsy item priced 20. -/
def itemB : Item := ⟨"b", some 20, none, none, "etsy_current"⟩

/-- Oracle where every call succeeds with empty item lists. -/
def oracleQuiet : Oracles :=
  ⟨.ok (some "t") (some 7200), .ok (some "t") (some 7200),
    .ok [] "cur note", .ok [] "sold note", .ok [] "etsy note"⟩

/-- Oracle where the primary current adapter throws and Etsy returns the
two items priced 10 and 20. -/
def oracleCascade : Oracles :=
  ⟨.ok (some "t") (some 7200), .ok (some "t") (some 7200),
    .err "boom", .ok [] "sold note", .ok [itemA, itemB] "etsy note"⟩

/-! ## Basic facts about the statistics engine -/

theorem length_sortedOf (values : List (Option ℚ)) :
    (sortedOf values).length = (values.filterMap id).length :=
  (List.perm_insertionSort _ _).length_eq

theorem length_filterMap_id (values : List (Option ℚ)) :
    (values.filterMap id).length = values.countP (fun v => v.isSome) := by
  induction values with
  | nil => rfl
  | cons h t ih => cases h <;> simp [List.filterMap_cons, List.countP_cons, ih]

theorem summarize_count_eq (values : List (Option ℚ)) :
    (summarize values).count = (sortedOf values).length := by
  by_cases h : (sortedOf values).length = 0 <;> simp [summarize, h, emptySummary]

theorem sortedOf_sorted (values : List (Option ℚ)) :
    (sortedOf values).Sorted (· ≤ ·) :=
  List.sorted_insertionSort _ _

/-- Claim C5: for every price series `S`, `summarize(S).count` equals the
number of finite elements of `S`, and on a series with no finite element
`summarize` returns `count = 0` with every other field the NaN sentinel. -/
theorem summarize_count_and_empty (S : List (Option ℚ)) :
    (summarize S).count = S.countP (fun v => v.isSome) ∧
      ((∀ v ∈ S, v = none) → summarize S = emptySummary) := by
  constructor
  · rw [summarize_count_eq, length_sortedOf, length_filterMap_id]
  · intro h
    have hnil : S.filterMap id = [] := by
      rw [List.filterMap_eq_nil_iff]
      intro a ha
      simpa using h a ha
    simp [summarize, sortedOf, hnil]

/-- Witness for C5 at the concrete all-NaN series `[none, none]`. -/
theorem summarize_count_and_empty_witness :
    summarize [none, none] = emptySummary :=
  (summarize_count_and_empty [none, none]).2 (by decide)

/-- Claim C1: on every non-empty sorted finite series the quantile used by
`summarize` is the midpoint of the order statistics at the floor and the
ceiling of `(n-1)p`, and `p25 = q(1/4)`, `median = q(1/2)`, `p75 = q(3/4)`. -/
theorem summarize_quantile_midpoint (S : List (Option ℚ))
    (h : sortedOf S ≠ []) :
    (∀ p, qtile (sortedOf S) p = specQuantile (sortedOf S) p) ∧
      (summarize S).p25 = some (specQuantile (sortedOf S) (1/4)) ∧
      (summarize S).median = some (specQuantile (sortedOf S) (1/2)) ∧
      (summarize S).p75 = some (specQuantile (sortedOf S) (3/4)) := by
  have hl : ¬((sortedOf S).length = 0) := by
    simpa [List.length_eq_zero] using h
  refine ⟨fun p => rfl, ?_, ?_, ?_⟩ <;>
    simp [summarize, hl, qtile, specQuantile]

/-- Witness for C1 at the concrete series `[some 2, some 1]`. -/
theorem summarize_quantile_midpoint_witness :
    (summarize [some 2, some 1]).median =
      some (specQuantile (sortedOf [some 2, some 1]) (1/2)) :=
  (summarize_quantile_midpoint [some 2, some 1] (by decide)).2.2.1

/-! ## Query guard and token manager claims -/

/-- Claim C10: a request whose `query` parameter is absent or trims to the
empty string is answered with status 400 and body `{error: "Missing
query"}`, no estimate payload, an empty note trail, no external call of
any kind (no token acquisition, no adapter), and an untouched cache. -/
theorem estimate_blank_query_guard (env : Env) (query : Option String)
    (cache : TokenCache) (now : ℤ) (o : Oracles)
    (h : blankQuery query = true) :
    handleEstimate env query cache now o =
      { status := 400, result := none, errorBody := some "Missing query",
        notes := [], calls := [], cache := cache } := by
  simp [handleEstimate, h]

/-- Witness for C10 at the blank query `some "  "`. -/
theorem estimate_blank_query_guard_witness :
    handleEstimate ⟨some "id", some "sec", none, none, none⟩ (some "  ") [] 0
        ⟨.ok (some "t") (some 7200), .ok (some "t") (some 7200),
          .ok [] "", .ok [] "", .ok [] ""⟩ =
      { status := 400, result := none, errorBody := some "Missing query",
        notes := [], calls := [], cache := [] } :=
  estimate_blank_query_guard _ _ _ _ _ (by decide)

/-- Claim C3: the cached token is returned while `now < exp - 60000`;
otherwise a fresh token is minted and stored with expiry
`now + max 0 expiresInMs` (the code computes `now + Math.max(0,
expires_in) * 1000`, which equals it); in particular an entry expiring
`now + 5000` triggers a fresh mint. -/
theorem getEbayToken_cache_policy (env : Env) (mint : MintOutcome)
    (cache : TokenCache) (now : ℤ) (scope : String) (c : TokenEntry)
    (t : String) (ei : ℤ) :
    (List.lookup scope cache = some c → now < c.exp - 60000 →
        getEbayToken env mint cache now scope = .ok (c.value, cache)) ∧
      ((List.lookup scope cache = none ∨
          (List.lookup scope cache = some c ∧ ¬now < c.exp - 60000)) →
        truthyStr env.EBAY_CLIENT_ID = true →
        truthyStr env.EBAY_CLIENT_SECRET = true →
        mint = .ok (some t) (some ei) → t ≠ "" →
        ∃ cache2, getEbayToken env mint cache now scope = .ok (t, cache2) ∧
          List.lookup scope cache2 = some ⟨t, now + max 0 (ei * 1000)⟩) ∧
      (List.lookup scope cache = some c → c.exp = now + 5000 →
        truthyStr env.EBAY_CLIENT_ID = true →
        truthyStr env.EBAY_CLIENT_SECRET = true →
        mint = .ok (some t) (some ei) → t ≠ "" →
        ∃ cache2, getEbayToken env mint cache now scope = .ok (t, cache2) ∧
          cache2 ≠ cache) := by
  have hexp : now + max 0 ei * 1000 = now + max 0 (ei * 1000) := by
    have : (max 0 ei) * 1000 = max (0 * 1000) (ei * 1000) :=
      max_mul_of_nonneg _ _ (by norm_num)
    omega
  refine ⟨?_, ?_, ?_⟩
  · intro hc hfresh
    have : now + 60000 < c.exp := by omega
    simp [getEbayToken, hc, this]
  · intro hmiss hid hsec hmint ht
    refine ⟨(scope, ⟨t, now + max 0 ei * 1000⟩) :: cache, ?_, ?_⟩
    · rcases hmiss with hnone | ⟨hc, hstale⟩
      · simp [getEbayToken, hnone, mintToken, hid, hsec, hmint, ht]
      · have : ¬(now + 60000 < c.exp) := by omega
        simp [getEbayToken, hc, this, mintToken, hid, hsec, hmint, ht]
    · simp [List.lookup, hexp]
  · intro hc hcexp hid hsec hmint ht
    have hstale : ¬(now + 60000 < c.exp) := by omega
    refine ⟨(scope, ⟨t, now + max 0 ei * 1000⟩) :: cache, ?_, ?_⟩
    · simp [getEbayToken, hc, hstale, mintToken, hid, hsec, hmint, ht]
    · intro hEq
      have := congrArg List.length hEq
      simp at this

/-- Witness for C3: a hit on a still-fresh entry, a mint after a miss, and
a mint forced by an entry expiring 5000 ms from now. -/
theorem getEbayToken_cache_policy_witness :
    (getEbayToken ⟨some "id", some "sec", none, none, none⟩
        (.ok (some "t") (some 7200)) [("s", ⟨"v", 100000⟩)] 0 "s" =
      .ok ("v", [("s", ⟨"v", 100000⟩)])) ∧
      (∃ cache2, getEbayToken ⟨some "id", some "sec", none, none, none⟩
          (.ok (some "t") (some 7200)) [] 0 "s" = .ok ("t", cache2) ∧
        List.lookup "s" cache2 = some ⟨"t", 0 + max 0 (7200 * 1000)⟩) ∧
      (∃ cache2, getEbayToken ⟨some "id", some "sec", none, none, none⟩
          (.ok (some "t") (some 7200)) [("s", ⟨"v", 0 + 5000⟩)] 0 "s" =
          .ok ("t", cache2) ∧
        cache2 ≠ [("s", ⟨"v", 0 + 5000⟩)]) :=
  ⟨(getEbayToken_cache_policy _ _ _ 0 "s" ⟨"v", 100000⟩ "t" 7200).1 (by decide)
      (by decide),
    (getEbayToken_cache_policy _ _ _ 0 "s" ⟨"v", 100000⟩ "t" 7200).2.1
      (Or.inl (by decide)) (by decide) (by decide) rfl (by decide),
    (getEbayToken_cache_policy _ _ _ 0 "s" ⟨"v", 0 + 5000⟩ "t" 7200).2.2
      (by decide) rfl (by decide) (by decide) rfl (by decide)⟩

/-! ## Adapter price invariant -/

theorem extractPrice_eq_none (cands : List (Option JsVal))
    (h : allCandidatesFail cands = true) : extractPrice cands = none := by
  unfold extractPrice firstTruthy
  cases hf : (cands.filterMap id).find? (fun v => v.truthy) with
  | none => rfl
  | some v =>
    have hv : v ∈ cands.filterMap id := List.mem_of_find?_eq_some hf
    have hmem : some v ∈ cands := by
      rcases List.mem_filterMap.mp hv with ⟨c, hc, hcv⟩
      have hc2 : c = some v := hcv
      rw [hc2] at hc
      exact hc
    have := List.all_eq_true.mp h _ hmem
    simpa [Option.isNone_iff_eq_none] using this

/-- Claim C9: every item emitted by the eBay adapters has a finite price,
and a raw record all of whose candidate price fields fail to parse to a
finite number contributes nothing to the returned item array. -/
theorem adapters_finite_price :
    (∀ (rows : List EbayCurrentRaw) (i : Item),
        i ∈ ebayCurrentItems rows → i.price.isSome = true) ∧
      (∀ (rows : List EbaySoldRaw) (i : Item),
        i ∈ ebaySoldItems rows → i.price.isSome = true) ∧
      (∀ (pre post : List EbayCurrentRaw) (r : EbayCurrentRaw),
        allCandidatesFail [r.priceValue, r.currentBidPriceValue] = true →
        ebayCurrentItems (pre ++ r :: post) = ebayCurrentItems (pre ++ post)) ∧
      (∀ (pre post : List EbaySoldRaw) (r : EbaySoldRaw),
        allCandidatesFail (soldCandidates r) = true →
        ebaySoldItems (pre ++ r :: post) = ebaySoldItems (pre ++ post)) := by
  refine ⟨?_, ?_, ?_, ?_⟩
  · intro rows i hi
    exact (List.mem_filter.mp hi).2
  · intro rows i hi
    rcases List.mem_filterMap.mp hi with ⟨r, _, hr⟩
    cases hp : extractPrice (soldCandidates r) with
    | none => rw [hp] at hr; cases hr
    | some p =>
      rw [hp] at hr
      cases hr
      rfl
  · intro pre post r h
    simp [ebayCurrentItems, List.filter_append, mapEbayCurrent,
      extractPrice_eq_none _ h]
  · intro pre post r h
    simp [ebaySoldItems, List.filterMap_append, extractPrice_eq_none _ h]

/-- Witness for C9: the adapters on one well-formed record and on one
record whose only price field is a non-numeric string. -/
theorem adapters_finite_price_witness :
    ((mapEbayCurrent ⟨"g", some ⟨true, some 5⟩, none, none, none⟩).price.isSome
        = true) ∧
      ebayCurrentItems ([] ++ ⟨"bad", some ⟨true, none⟩, none, none, none⟩ ::
          []) = ebayCurrentItems ([] ++ []) ∧
      ebaySoldItems ([] ++ ⟨"bad", none, none, some ⟨true, none⟩, none, none,
          none, none⟩ :: []) = ebaySoldItems ([] ++ []) :=
  ⟨adapters_finite_price.1 [⟨"g", some ⟨true, some 5⟩, none, none, none⟩] _
      (by decide),
    adapters_finite_price.2.2.1 [] [] _ (by decide),
    adapters_finite_price.2.2.2 [] [] _ (by decide)⟩

/-! ## Order of the summary fields -/

theorem cast_length_sub_one_nonneg {a : List ℚ} (hn : a.length ≠ 0) :
    (0:ℚ) ≤ (a.length : ℚ) - 1 := by
  have h1 : (1:ℚ) ≤ (a.length : ℚ) := by
    exact_mod_cast Nat.one_le_iff_ne_zero.mpr hn
  linarith

theorem ceil_idx_le {n : ℕ} (hn : n ≠ 0) {p : ℚ} (hp1 : p ≤ 1)
    (hx : (0:ℚ) ≤ (n:ℚ) - 1) :
    (Int.ceil (((n:ℚ) - 1) * p)).toNat ≤ n - 1 := by
  have h1 : Int.ceil (((n:ℚ) - 1) * p) ≤ Int.ceil ((n:ℚ) - 1) :=
    Int.ceil_le_ceil (mul_le_of_le_one_right hx hp1)
  have h2 : Int.ceil ((n:ℚ) - 1) = (n:ℤ) - 1 := by
    rw [show ((n:ℚ) - 1) = (((n:ℤ) - 1 : ℤ) : ℚ) by push_cast; ring]
    exact Int.ceil_intCast _
  have h3 := Int.toNat_le_toNat (h1.trans_eq h2)
  omega

theorem getD_le_getD {a : List ℚ} (ha : a.Sorted (· ≤ ·)) {i j : ℕ}
    (hij : i ≤ j) (hj : j < a.length) : a.getD i 0 ≤ a.getD j 0 := by
  have hi : i < a.length := lt_of_le_of_lt hij hj
  rw [List.getD_eq_get a 0 hi, List.getD_eq_get a 0 hj]
  exact ha.rel_get_of_le (Fin.mk_le_mk.mpr hij)

theorem qtile_le_qtile {a : List ℚ} (ha : a.Sorted (· ≤ ·)) (hne : a ≠ [])
    {p q : ℚ} (hp0 : 0 ≤ p) (hpq : p ≤ q) (hq1 : q ≤ 1) :
    qtile a p ≤ qtile a q := by
  have hn : a.length ≠ 0 := by simpa [List.length_eq_zero] using hne
  have hx : (0:ℚ) ≤ (a.length : ℚ) - 1 := cast_length_sub_one_nonneg hn
  have hmul : ((a.length:ℚ) - 1) * p ≤ ((a.length:ℚ) - 1) * q :=
    mul_le_mul_of_nonneg_left hpq hx
  have hfl := Int.toNat_le_toNat (Int.floor_le_floor hmul)
  have hcl := Int.toNat_le_toNat (Int.ceil_le_ceil hmul)
  have hclq : (Int.ceil (((a.length:ℚ) - 1) * q)).toNat < a.length := by
    have := ceil_idx_le hn hq1 hx
    omega
  have hflq : (Int.floor (((a.length:ℚ) - 1) * q)).toNat < a.length := by
    have := Int.toNat_le_toNat (Int.floor_le_ceil (((a.length:ℚ) - 1) * q))
    omega
  have g1 := getD_le_getD ha hfl hflq
  have g2 := getD_le_getD ha hcl hclq
  unfold qtile
  linarith

theorem qtile_zero {a : List ℚ} : qtile a 0 = a.getD 0 0 := by
  simp only [qtile, mul_zero, Int.floor_zero, Int.ceil_zero, Int.toNat_zero]
  ring

theorem qtile_one {a : List ℚ} (hn : a.length ≠ 0) :
    qtile a 1 = a.getD (a.length - 1) 0 := by
  have h1 : 1 ≤ a.length := Nat.one_le_iff_ne_zero.mpr hn
  have hcast : ((a.length:ℚ) - 1) * 1 = ((a.length - 1 : ℕ) : ℚ) := by
    rw [mul_one, Nat.cast_sub h1]
    norm_num
  simp only [qtile, hcast, Int.floor_natCast, Int.ceil_natCast,
    Int.toNat_natCast]
  ring

/-- Claim C7: for every non-empty finite series the summary fields are
ordered `min ≤ p25 ≤ median ≤ p75 ≤ max`. -/
theorem summarize_field_order (S : List (Option ℚ)) (h : sortedOf S ≠ []) :
    ∃ mn q1 md q3 mx,
      (summarize S).min = some mn ∧ (summarize S).p25 = some q1 ∧
      (summarize S).median = some md ∧ (summarize S).p75 = some q3 ∧
      (summarize S).max = some mx ∧
      mn ≤ q1 ∧ q1 ≤ md ∧ md ≤ q3 ∧ q3 ≤ mx := by
  have hs := sortedOf_sorted S
  have hn : ¬(sortedOf S).length = 0 := by
    simpa [List.length_eq_zero] using h
  refine ⟨(sortedOf S).getD 0 0, qtile (sortedOf S) (1/4),
    qtile (sortedOf S) (1/2), qtile (sortedOf S) (3/4),
    (sortedOf S).getD ((sortedOf S).length - 1) 0,
    ?_, ?_, ?_, ?_, ?_, ?_, ?_, ?_, ?_⟩
  · simp [summarize, hn]
  · simp [summarize, hn]
  · simp [summarize, hn]
  · simp [summarize, hn]
  · simp [summarize, hn]
  · rw [← qtile_zero]
    exact qtile_le_qtile hs h le_rfl (by norm_num) (by norm_num)
  · exact qtile_le_qtile hs h (by norm_num) (by norm_num) (by norm_num)
  · exact qtile_le_qtile hs h (by norm_num) (by norm_num) (by norm_num)
  · rw [← qtile_one hn]
    exact qtile_le_qtile hs h (by norm_num) (by norm_num) le_rfl

/-- Witness for C7 at the concrete series `[some 3, some 1, some 2]`. -/
theorem summarize_field_order_witness :
    ∃ mn q1 md q3 mx,
      (summarize [some 3, some 1, some 2]).min = some mn ∧
      (summarize [some 3, some 1, some 2]).p25 = some q1 ∧
      (summarize [some 3, some 1, some 2]).median = some md ∧
      (summarize [some 3, some 1, some 2]).p75 = some q3 ∧
      (summarize [some 3, some 1, some 2]).max = some mx ∧
      mn ≤ q1 ∧ q1 ≤ md ∧ md ≤ q3 ∧ q3 ≤ mx :=
  summarize_field_order [some 3, some 1, some 2] (by decide)

/-! ## Trimmed average -/

theorem foldl_add_eq_sum (l : List ℚ) : l.foldl (· + ·) 0 = l.sum :=
  List.sum_eq_foldl.symm

theorem le_meanOf {l : List ℚ} (hne : l ≠ []) {m : ℚ}
    (h : ∀ x ∈ l, m ≤ x) : m ≤ meanOf l := by
  have hlen : (0:ℚ) < (l.length : ℚ) := by
    exact_mod_cast List.length_pos.mpr hne
  rw [meanOf, foldl_add_eq_sum, le_div_iff₀ hlen]
  calc m * (l.length : ℚ) = (l.length : ℚ) * m := by ring
    _ = l.length • m := (nsmul_eq_mul _ _).symm
    _ ≤ l.sum := List.card_nsmul_le_sum l m h

theorem meanOf_le {l : List ℚ} (hne : l ≠ []) {m : ℚ}
    (h : ∀ x ∈ l, x ≤ m) : meanOf l ≤ m := by
  have hlen : (0:ℚ) < (l.length : ℚ) := by
    exact_mod_cast List.length_pos.mpr hne
  rw [meanOf, foldl_add_eq_sum, div_le_iff₀ hlen]
  calc l.sum ≤ l.length • m := List.sum_le_card_nsmul l m h
    _ = (l.length : ℚ) * m := nsmul_eq_mul _ _
    _ = m * (l.length : ℚ) := by ring

theorem sorted_first_le {a : List ℚ} (ha : a.Sorted (· ≤ ·)) {v : ℚ}
    (hv : v ∈ a) : a.getD 0 0 ≤ v := by
  rcases List.mem_iff_get.mp hv with ⟨i, rfl⟩
  have h0 : 0 < a.length := lt_of_le_of_lt (Nat.zero_le _) i.isLt
  rw [List.getD_eq_get a 0 h0]
  exact ha.rel_get_of_le (Fin.mk_le_mk.mpr (Nat.zero_le _))

theorem sorted_le_last {a : List ℚ} (ha : a.Sorted (· ≤ ·)) {v : ℚ}
    (hv : v ∈ a) : v ≤ a.getD (a.length - 1) 0 := by
  rcases List.mem_iff_get.mp hv with ⟨i, rfl⟩
  have hlast : a.length - 1 < a.length := by
    have := i.isLt
    omega
  rw [List.getD_eq_get a 0 hlast]
  refine ha.rel_get_of_le (Fin.mk_le_mk.mpr ?_)
  have := i.isLt
  omega

theorem mem_trimmedOf {a : List ℚ} {v : ℚ} (hv : v ∈ trimmedOf a) : v ∈ a :=
  List.mem_of_mem_filter hv

/-- Claim C6: `avg_trimmed` is the mean of the values inside the Tukey
fences (falling back to the untrimmed `avg` when the fenced subset is
empty), lies within `[min, max]`, and equals `avg` whenever no element
lies outside the fences. -/
theorem summarize_avg_trimmed (S : List (Option ℚ)) (h : sortedOf S ≠ []) :
    ∃ mn mx av t,
      (summarize S).min = some mn ∧ (summarize S).max = some mx ∧
      (summarize S).avg = some av ∧ (summarize S).avg_trimmed = some t ∧
      t = (if trimmedOf (sortedOf S) = [] then av
        else meanOf (trimmedOf (sortedOf S))) ∧
      mn ≤ t ∧ t ≤ mx ∧
      ((∀ v ∈ sortedOf S, loFenceOf (sortedOf S) ≤ v ∧
          v ≤ hiFenceOf (sortedOf S)) → t = av) := by
  have hs := sortedOf_sorted S
  have hn : ¬(sortedOf S).length = 0 := by
    simpa [List.length_eq_zero] using h
  have hbound : (sortedOf S).getD 0 0 ≤ avgTrimmedOf (sortedOf S) ∧
      avgTrimmedOf (sortedOf S) ≤
        (sortedOf S).getD ((sortedOf S).length - 1) 0 := by
    unfold avgTrimmedOf
    by_cases ht : (trimmedOf (sortedOf S)).length ≠ 0
    · have htne : trimmedOf (sortedOf S) ≠ [] := by
        simpa [List.length_eq_zero] using ht
      rw [if_pos ht]
      exact ⟨le_meanOf htne fun x hx => sorted_first_le hs (mem_trimmedOf hx),
        meanOf_le htne fun x hx => sorted_le_last hs (mem_trimmedOf hx)⟩
    · rw [if_neg ht]
      exact ⟨le_meanOf h fun x hx => sorted_first_le hs hx,
        meanOf_le h fun x hx => sorted_le_last hs hx⟩
  refine ⟨(sortedOf S).getD 0 0,
    (sortedOf S).getD ((sortedOf S).length - 1) 0,
    meanOf (sortedOf S), avgTrimmedOf (sortedOf S),
    ?_, ?_, ?_, ?_, ?_, hbound.1, hbound.2, ?_⟩
  · simp [summarize, hn]
  · simp [summarize, hn]
  · simp [summarize, hn]
  · simp [summarize, hn]
  · unfold avgTrimmedOf
    by_cases ht : (trimmedOf (sortedOf S)).length ≠ 0
    · rw [if_pos ht, if_neg (by simpa [List.length_eq_zero] using ht)]
    · rw [if_neg ht, if_pos (by simpa [List.length_eq_zero] using ht)]
  · intro hall
    have htr : trimmedOf (sortedOf S) = sortedOf S :=
      List.filter_eq_self.mpr fun v hv => decide_eq_true (hall v hv)
    unfold avgTrimmedOf
    rw [htr, if_pos (by simpa [List.length_eq_zero] using h)]

/-- Witness for C6 at the concrete series `[some 1, some 2, some 30]`. -/
theorem summarize_avg_trimmed_witness :
    ∃ mn mx av t,
      (summarize [some 1, some 2, some 30]).min = some mn ∧
      (summarize [some 1, some 2, some 30]).max = some mx ∧
      (summarize [some 1, some 2, some 30]).avg = some av ∧
      (summarize [some 1, some 2, some 30]).avg_trimmed = some t ∧
      t = (if trimmedOf (sortedOf [some 1, some 2, some 30]) = [] then av
        else meanOf (trimmedOf (sortedOf [some 1, some 2, some 30]))) ∧
      mn ≤ t ∧ t ≤ mx ∧
      ((∀ v ∈ sortedOf [some 1, some 2, some 30],
          loFenceOf (sortedOf [some 1, some 2, some 30]) ≤ v ∧
          v ≤ hiFenceOf (sortedOf [some 1, some 2, some 30])) → t = av) :=
  summarize_avg_trimmed [some 1, some 2, some 30] (by decide)

/-! ## Orchestrator: cascade, error capture, status policy -/

theorem sorted_pair_10_20 : sortedOf [some 10, some 20] = [10, 20] := by
  norm_num [sortedOf, List.insertionSort, List.orderedInsert]

theorem qtile_pair_10_20 : qtile [(10:ℚ), 20] (1/2) = 15 := by
  unfold qtile
  have h : ((([(10:ℚ), 20] : List ℚ).length : ℚ) - 1) * (1/2) = 1/2 := by
    norm_num
  rw [h]
  have hf : Int.floor ((1:ℚ)/2) = 0 := by norm_num
  have hc : Int.ceil ((1:ℚ)/2) = 1 := by
    rw [show ((1:ℚ)/2) = -(-(1/2)) by ring, Int.ceil_neg]
    norm_num
  rw [hf, hc]
  norm_num

theorem median_pair_10_20 : (summarize [some 10, some 20]).median = some 15 := by
  simp only [summarize, sorted_pair_10_20, qtile_pair_10_20]
  norm_num

theorem etsyFallback_notes_mono (env : Env) (etsyO : Outcome)
    (items : List Item) (notes calls : List String) :
    ∃ extra, (etsyFallback env etsyO items notes calls).2.1 = notes ++ extra := by
  unfold etsyFallback
  by_cases hc : (items.length = 0 && truthyStr env.ETSY_API_KEY) = true
  · rw [if_pos hc]
    cases etsyO
    · exact ⟨_, rfl⟩
    · exact ⟨_, rfl⟩
  · rw [if_neg hc]
    exact ⟨[], (List.append_nil notes).symm⟩

theorem etsyFallback_mem_notes (env : Env) (etsyO : Outcome)
    (items : List Item) (notes calls : List String) {x : String}
    (hx : x ∈ notes) : x ∈ (etsyFallback env etsyO items notes calls).2.1 := by
  obtain ⟨extra, hex⟩ := etsyFallback_notes_mono env etsyO items notes calls
  rw [hex]
  exact List.mem_append_left _ hx

theorem etsyFallback_noop (env : Env) (etsyO : Outcome) (items : List Item)
    (notes calls : List String) (h : truthyStr env.ETSY_API_KEY = false) :
    etsyFallback env etsyO items notes calls = (items, notes, calls) := by
  simp [etsyFallback, h]

theorem append_left_ne_empty {s : String} (t : String) (hs : s ≠ "") :
    s ++ t ≠ "" := by
  intro hEq
  apply hs
  have hd := congrArg String.data hEq
  rw [String.data_append] at hd
  rcases List.append_eq_nil.mp hd with ⟨h1, _⟩
  exact String.ext h1

/-- Claim C4: when the primary current branch yields zero items and the
Etsy key is configured, the secondary adapter is invoked; its items are
substituted when non-empty, otherwise the empty primary result is kept.
With an erroring primary and a secondary returning items priced 10 and
20, `items_current` is those two items and `stats.current.median = 15`. -/
theorem current_branch_cascade :
    (∀ (env : Env) (etsyO : Outcome) (notes calls : List String),
      truthyStr env.ETSY_API_KEY = true →
      ("searchEtsyCurrent" ∈ (etsyFallback env etsyO [] notes calls).2.2 ∧
      (∀ its n, etsyO = .ok its n → its ≠ [] →
        (etsyFallback env etsyO [] notes calls).1 = its) ∧
      (∀ n, etsyO = .ok [] n → (etsyFallback env etsyO [] notes calls).1 = []) ∧
      (∀ msg, etsyO = .err msg →
        (etsyFallback env etsyO [] notes calls).1 = []))) ∧
    (∀ (env : Env) (query : String) (cache : TokenCache) (now : ℤ)
      (o : Oracles) (tb : String) (cb : TokenCache) (m enote : String)
      (i1 i2 : Item),
      blankQuery (some query) = false →
      getEbayToken env o.mintBrowse cache now browseScope = .ok (tb, cb) →
      o.ebayCurrent = .err m →
      truthyStr env.ETSY_API_KEY = true →
      o.etsy = .ok [i1, i2] enote →
      i1.price = some 10 → i2.price = some 20 →
      ∃ r, (handleEstimate env (some query) cache now o).result = some r ∧
        r.items_current = [i1, i2] ∧ r.stats_current.median = some 15) := by
  constructor
  · intro env etsyO notes calls hkey
    refine ⟨?_, ?_, ?_, ?_⟩
    · simp only [etsyFallback, List.length_nil, hkey]
      cases etsyO <;> simp
    · intro its n hE hne
      subst hE
      simp [etsyFallback, hkey, List.length_eq_zero, hne]
    · intro n hE
      subst hE
      simp [etsyFallback, hkey]
    · intro msg hE
      subst hE
      simp [etsyFallback, hkey]
  · intro env query cache now o tb cb m enote i1 i2 hq hb hcur hkey hetsy hp1 hp2
    simp only [handleEstimate, hq, Bool.false_eq_true, if_false, hb, hcur,
      hetsy, branchItems, etsyFallback, List.length_nil, hkey]
    refine ⟨_, rfl, ?_, ?_⟩
    · simp
    · simp [hp1, hp2, median_pair_10_20]

/-- Witness for C4: the erroring primary plus the 10/20 Etsy secondary. -/
theorem current_branch_cascade_witness :
    ∃ r, (handleEstimate envConfigured (some "q") cacheTokens 0
        oracleCascade).result = some r ∧
      r.items_current = [itemA, itemB] ∧ r.stats_current.median = some 15 :=
  current_branch_cascade.2 envConfigured "q" cacheTokens 0 oracleCascade
    "tb" cacheTokens "boom" "etsy note" itemA itemB
    (by decide) rfl rfl (by decide) rfl rfl rfl

/-- Claim C8: adapter and token errors are caught, turned into notes and
the branch degrades to empty; with both primaries empty and no secondary
configured, both item arrays are empty, all three counts are 0, and the
note trail contains both branch notes. -/
theorem orchestrator_error_capture :
    (∀ (env : Env) (query : String) (cache : TokenCache) (now : ℤ)
      (o : Oracles) (tb : String) (cb : TokenCache) (m : String),
      blankQuery (some query) = false →
      getEbayToken env o.mintBrowse cache now browseScope = .ok (tb, cb) →
      o.ebayCurrent = .err m →
      (("eBay current error: " ++ m) ∈
          (handleEstimate env (some query) cache now o).notes ∧
        (truthyStr env.ETSY_API_KEY = false →
          ∃ r, (handleEstimate env (some query) cache now o).result = some r ∧
            r.items_current = []))) ∧
    (∀ (env : Env) (query : String) (cache : TokenCache) (now : ℤ)
      (o : Oracles) (tb : String) (cb : TokenCache) (ti : String)
      (ci : TokenCache) (m : String),
      blankQuery (some query) = false →
      getEbayToken env o.mintBrowse cache now browseScope = .ok (tb, cb) →
      getEbayToken env o.mintInsights cb now insightsScope = .ok (ti, ci) →
      o.ebaySold = .err m →
      (("eBay sold error: " ++ m) ∈
          (handleEstimate env (some query) cache now o).notes ∧
        ∃ r, (handleEstimate env (some query) cache now o).result = some r ∧
          r.items_sold = [])) ∧
    (∀ (env : Env) (query : String) (cache : TokenCache) (now : ℤ)
      (o : Oracles) (emsg : String),
      blankQuery (some query) = false →
      getEbayToken env o.mintBrowse cache now browseScope = .error emsg →
      (("Browse token error: " ++ emsg) ∈
          (handleEstimate env (some query) cache now o).notes ∧
        "No Browse token" ∈ (handleEstimate env (some query) cache now o).notes ∧
        (truthyStr env.ETSY_API_KEY = false →
          ∃ r, (handleEstimate env (some query) cache now o).result = some r ∧
            r.items_current = []))) ∧
    (∀ (env : Env) (query : String) (cache : TokenCache) (now : ℤ)
      (o : Oracles) (tb : String) (cb : TokenCache) (ti : String)
      (ci : TokenCache) (n1 n2 : String),
      blankQuery (some query) = false →
      getEbayToken env o.mintBrowse cache now browseScope = .ok (tb, cb) →
      getEbayToken env o.mintInsights cb now insightsScope = .ok (ti, ci) →
      o.ebayCurrent = .ok [] n1 → o.ebaySold = .ok [] n2 →
      truthyStr env.ETSY_API_KEY = false → n1 ≠ "" → n2 ≠ "" →
      ∃ r, (handleEstimate env (some query) cache now o).result = some r ∧
        r.items_current = [] ∧ r.items_sold = [] ∧
        r.stats_current.count = 0 ∧ r.stats_sold.count = 0 ∧
        r.stats_combined.count = 0 ∧
        n1 ∈ (handleEstimate env (some query) cache now o).notes ∧
        n2 ∈ (handleEstimate env (some query) cache now o).notes) := by
  refine ⟨?_, ?_, ?_, ?_⟩
  · intro env query cache now o tb cb m hq hb hcur
    have hne : ("eBay current error: " ++ m) ≠ "" :=
      append_left_ne_empty m (by decide)
    constructor
    · simp only [handleEstimate, hq, Bool.false_eq_true, if_false, hb, hcur]
      refine List.mem_append_left _ (etsyFallback_mem_notes _ _ _ _ _ ?_)
      simp [branchNotes, hne]
    · intro hkey
      simp only [handleEstimate, hq, Bool.false_eq_true, if_false, hb, hcur,
        etsyFallback_noop _ _ _ _ _ hkey]
      exact ⟨_, rfl, rfl⟩
  · intro env query cache now o tb cb ti ci m hq hb hi hsold
    have hne : ("eBay sold error: " ++ m) ≠ "" :=
      append_left_ne_empty m (by decide)
    constructor
    · simp only [handleEstimate, hq, Bool.false_eq_true, if_false, hb, hi, hsold]
      refine List.mem_append_right _ ?_
      simp [branchNotes, hne]
    · simp only [handleEstimate, hq, Bool.false_eq_true, if_false, hb, hi, hsold]
      exact ⟨_, rfl, rfl⟩
  · intro env query cache now o emsg hq hb
    refine ⟨?_, ?_, ?_⟩
    · simp only [handleEstimate, hq, Bool.false_eq_true, if_false, hb]
      refine List.mem_append_left _ (etsyFallback_mem_notes _ _ _ _ _ ?_)
      simp
    · simp only [handleEstimate, hq, Bool.false_eq_true, if_false, hb]
      refine List.mem_append_left _ (etsyFallback_mem_notes _ _ _ _ _ ?_)
      simp [branchNotes]
    · intro hkey
      simp only [handleEstimate, hq, Bool.false_eq_true, if_false, hb,
        etsyFallback_noop _ _ _ _ _ hkey]
      exact ⟨_, rfl, rfl⟩
  · intro env query cache now o tb cb ti ci n1 n2 hq hb hi hcur hsold hkey hn1 hn2
    simp only [handleEstimate, hq, Bool.false_eq_true, if_false, hb, hi, hcur,
      hsold, branchItems, etsyFallback_noop _ _ _ _ _ hkey]
    refine ⟨_, rfl, rfl, rfl, rfl, rfl, rfl, ?_, ?_⟩ <;>
      simp [branchNotes, hn1, hn2]

/-- Witness for C8: an erroring primary adapter leaves its tagged note,
and the empty-empty scenario with no Etsy key yields empty arrays, zero
counts, and both branch notes. -/
theorem orchestrator_error_capture_witness :
    ("eBay current error: " ++ "boom") ∈
        (handleEstimate envNoEtsy (some "q") cacheTokens 0 oracleCascade).notes ∧
      (∃ r, (handleEstimate envNoEtsy (some "q") cacheTokens 0
          oracleQuiet).result = some r ∧
        r.items_current = [] ∧ r.items_sold = [] ∧
        r.stats_current.count = 0 ∧ r.stats_sold.count = 0 ∧
        r.stats_combined.count = 0 ∧
        "cur note" ∈
          (handleEstimate envNoEtsy (some "q") cacheTokens 0 oracleQuiet).notes ∧
        "sold note" ∈
          (handleEstimate envNoEtsy (some "q") cacheTokens 0 oracleQuiet).notes) :=
  ⟨(orchestrator_error_capture.1 envNoEtsy "q" cacheTokens 0 oracleCascade
      "tb" cacheTokens "boom" (by decide) rfl rfl).1,
    orchestrator_error_capture.2.2.2 envNoEtsy "q" cacheTokens 0 oracleQuiet
      "tb" cacheTokens "ti" cacheTokens "cur note" "sold note"
      (by decide) rfl rfl rfl rfl (by decide) (by decide) (by decide)⟩

/-- Counterexample for C2 as stated: a blank-query request on a fully
configured environment is answered with the non-success status 400, and
a totally misconfigured environment still gets a success status 200. -/
theorem estimate_status_counterexample :
    ((handleEstimate envConfigured (some "") [] 0 oracleQuiet).status = 400 ∧
      totallyMisconfigured envConfigured = false) ∧
    ((handleEstimate envUnconfigured (some "beanie") [] 0 oracleQuiet).status
        = 200 ∧
      totallyMisconfigured envUnconfigured = true) := by
  refine ⟨⟨?_, ?_⟩, ⟨?_, ?_⟩⟩ <;> decide

/-- Claim C2 as amended: the main worker returns non-success only for a
blank query (400); with a non-empty query every outcome — token errors,
adapter errors, empty results, even total misconfiguration — is a 200
response; only the compat variant returns 500, exactly on a non-blank
query with total misconfiguration. -/
theorem estimate_status_policy :
    (∀ (env : Env) (query : Option String) (cache : TokenCache) (now : ℤ)
      (o : Oracles), blankQuery query = false →
      (handleEstimate env query cache now o).status = 200) ∧
    (∀ (env : Env) (query : Option String) (cache : TokenCache) (now : ℤ)
      (o : Oracles), blankQuery query = true →
      (handleEstimate env query cache now o).status = 400) ∧
    (∀ (cenv : CompatEnv) (query : Option String),
      compatEstimateStatus cenv query = 500 ↔
        blankQuery query = false ∧ compatMisconfigured cenv = true) := by
  refine ⟨?_, ?_, ?_⟩
  · intro env query cache now o h
    simp [handleEstimate, h]
  · intro env query cache now o h
    simp [handleEstimate, h]
  · intro cenv query
    unfold compatEstimateStatus
    by_cases hb : blankQuery query <;>
      by_cases hm : compatMisconfigured cenv <;> simp [hb, hm]

/-- Witness for the amended C2 at concrete environments and queries. -/
theorem estimate_status_policy_witness :
    ((handleEstimate envConfigured (some "x") [] 0 oracleQuiet).status = 200) ∧
      ((handleEstimate envConfigured none [] 0 oracleQuiet).status = 400) ∧
      (compatEstimateStatus ⟨none, none, none⟩ (some "x") = 500 ↔
        blankQuery (some "x") = false ∧
          compatMisconfigured ⟨none, none, none⟩ = true) :=
  ⟨estimate_status_policy.1 _ _ _ _ _ (by decide),
    estimate_status_policy.2.1 _ _ _ _ _ (by decide),
    estimate_status_policy.2.2 _ _⟩

end BeanieBabyBuddy
